import Mathlib

/-!
# Verification of the `car` dashboard client synchronization session

Shallow embedding of the pin/motor state-synchronization logic of the Svelte
dashboard front ends (primary variant: `testfrontend/src/routes/+page.svelte`;
secondary variants from the unnamed page files are embedded separately where a
claim cites them).  Network effects are made explicit: each `fetch` outcome is
a `FetchResult` parameter, mutable component state is an explicit `AppState`
threaded through the operations, and every operation also reports the list of
HTTP requests it issued.
-/

namespace Car

/-- The fragment of JSON values exchanged with the GPIO/motor HTTP API by the
code paths modelled here (objects, strings, booleans, numbers, null; none of
these endpoints exchange arrays).  Numbers are modelled as integers, which
covers every numeric value these code paths produce (pin ids, levels, speeds,
the 1000 Hz default frequency, integer slider duty cycles). -/
inductive JVal where
  | null
  | bool (b : Bool)
  | num (n : Int)
  | str (s : String)
  | obj (fields : List (String × JVal))
  deriving Repr

/-- JS property access `j.key` on a parsed JSON value: the field if `j` is an
object carrying it, otherwise `undefined` (here `none`). -/
def JVal.getField : JVal → String → Option JVal
  | .obj fields, key => fields.lookup key
  | _, _ => none

/-- JS truthiness of a parsed JSON value. -/
def JVal.truthy : JVal → Bool
  | .null => false
  | .bool b => b
  | .num n => n != 0
  | .str s => s != ""
  | .obj _ => true

/-- JS `x || d` for a possibly-undefined `x` (absent property or falsy value
falls through to the default). -/
def jsOr (v : Option JVal) (d : JVal) : JVal :=
  match v with
  | some x => if x.truthy then x else d
  | none => d

/-- JS truthiness of a possibly-undefined value (`undefined` is falsy), as in
`pins[pin]?.state || false`. -/
def optTruthy (v : Option JVal) : Bool :=
  match v with
  | some x => x.truthy
  | none => false

/-- JS `String(v)` coercion used by `new Error(v)` for the values of this JSON
fragment. -/
def JVal.jsString : JVal → String
  | .null => "null"
  | .bool true => "true"
  | .bool false => "false"
  | .num n => toString n
  | .str s => s
  | .obj _ => "[object Object]"

/-- A detection record from the camera metadata channel: `{class, confidence}`.
`class` is a Lean keyword, so the field is named `cls`; confidence is kept as
an integer percentage (its value never influences the modelled logic). -/
structure Detection where
  cls : String
  confidence : Int
  deriving Repr, DecidableEq

/-- The mutable component state of the dashboard page (the `let` bindings of
the script relevant to the claims).  `connectionStatus` keeps the source's
string values `disconnected / connected / error`. -/
structure AppState where
  connectionStatus : String
  pins : JVal
  availablePins : JVal
  predefinedPins : JVal
  motorStatus : JVal
  moving : Bool
  detectionInfo : List Detection
  objectDetected : Bool
  findObject : String
  foundTarget : Bool
  deriving Repr

/-- Initial state of the page script. -/
def initState : AppState :=
  { connectionStatus := "disconnected"
    pins := JVal.obj []
    availablePins := JVal.obj []
    predefinedPins := JVal.obj []
    motorStatus := JVal.obj []
    moving := false
    detectionInfo := []
    objectDetected := false
    findObject := ""
    foundTarget := false }

/-- Outcome of a single `fetch`: the transport fails (rejected promise: network
unreachable, timeout, abort), or an HTTP response arrives with its `ok` flag
and a body that either parses as JSON (`some`) or is unparseable (`none`). -/
inductive FetchResult where
  | transportError
  | response (ok : Bool) (body : Option JVal)
  deriving Repr

/-- The kinds of JS exceptions the modelled code can throw: the fetch transport
error, a `SyntaxError` from `response.json()` on an unparseable body, and an
`Error(message)` constructed by the code itself. -/
inductive JsError where
  | transport
  | syntaxError
  | message (s : String)
  deriving Repr, DecidableEq

/-- An HTTP request as issued by `makeRequest`: endpoint path, method, and the
JSON body (`JSON.stringify` is elided; the body is carried structurally). -/
structure Request where
  endpoint : String
  method : String
  body : Option JVal
  deriving Repr

/-- Predicate: `fr` is one of the two request-failure outcomes the spec calls command
failures: transport failure or a non-success HTTP status. -/
def requestFails : FetchResult → Bool
  | .transportError => true
  | .response ok _ => !ok

/-- Error-message extraction of the testfrontend `makeRequest` on a non-ok
response: `response.json().catch(() => ({detail: 'Request failed'}))` followed
by `new Error(error.detail || 'Request failed')`. -/
def detailMessage (body : Option JVal) : String :=
  let errObj := body.getD (JVal.obj [("detail", JVal.str "Request failed")])
  (jsOr (errObj.getField "detail") (JVal.str "Request failed")).jsString

/-- The `makeRequest(endpoint, method, body)` of the testfrontend variant.  Returns
the updated state, the single request issued, and either the parsed response
body or the thrown error.  Control flow from the source: on a non-ok response
it throws `Error(detail || 'Request failed')`; on an ok response it sets
`connectionStatus = 'connected'` and then parses the body (an unparseable body
throws from `response.json()`); the `catch` block sets
`connectionStatus = 'error'` and rethrows. -/
def makeRequest (endpoint method : String) (body : Option JVal) (fr : FetchResult)
    (st : AppState) : AppState × Request × Except JsError JVal :=
  let req : Request := ⟨endpoint, method, body⟩
  match fr with
  | .transportError =>
      ({ st with connectionStatus := "error" }, req, .error .transport)
  | .response ok rbody =>
      if ok then
        match rbody with
        | some j => ({ st with connectionStatus := "connected" }, req, .ok j)
        | none => ({ st with connectionStatus := "error" }, req, .error .syntaxError)
      else
        ({ st with connectionStatus := "error" }, req,
          .error (.message (detailMessage rbody)))

/-- The `loadAllPins()` operation: State Mirror refresh of the pin mappings.  On success with
a truthy body it replaces `pins` and `availablePins` wholesale; every error
from `makeRequest` is caught locally (`console.error` only), leaving state as
`makeRequest` left it. -/
def loadAllPins (fr : FetchResult) (st : AppState) : AppState × List Request :=
  let (st1, req, res) := makeRequest "/pins/all" "GET" none fr st
  match res with
  | .ok data =>
      if data.truthy then
        ({ st1 with
            pins := jsOr (data.getField "pins") (JVal.obj [])
            availablePins := jsOr (data.getField "available_pins") (JVal.obj []) },
          [req])
      else (st1, [req])
  | .error _ => (st1, [req])

/-- The `loadMotorStatus()` operation: State Mirror refresh of the motor mapping, same
contract as `loadAllPins` scoped to `motor_status`. -/
def loadMotorStatus (fr : FetchResult) (st : AppState) : AppState × List Request :=
  let (st1, req, res) := makeRequest "/motor/status" "GET" none fr st
  match res with
  | .ok data =>
      if data.truthy then
        ({ st1 with motorStatus := jsOr (data.getField "motor_status") (JVal.obj []) },
          [req])
      else (st1, [req])
  | .error _ => (st1, [req])

/-- The mirror's boolean level of a pin: `pins[pin]?.state || false` (JS object
indexing stringifies the numeric key). -/
def pinLevel (pins : JVal) (pin : Nat) : Bool :=
  optTruthy ((pins.getField (toString pin)).bind (fun p => p.getField "state"))

/-- The `togglePin(pin)` command: reads the mirror's current level, issues one
`POST /digital/write` for its negation, and on success refreshes the pin
mirror; the `catch` block (log + alert) performs no refresh. -/
def togglePin (pin : Nat) (frWrite frRefresh : FetchResult) (st : AppState) :
    AppState × List Request :=
  let currentState := pinLevel st.pins pin
  let data := JVal.obj [("pin", JVal.num pin), ("state", JVal.bool (!currentState))]
  let (st1, reqW, res) := makeRequest "/digital/write" "POST" (some data) frWrite st
  match res with
  | .error _ => (st1, [reqW])
  | .ok _ =>
      let (st2, reqsR) := loadAllPins frRefresh st1
      (st2, reqW :: reqsR)

/-- Truthiness of the mirror's PWM sub-state for a pin: `pins[pin]?.pwm`. -/
def pwmShown (pins : JVal) (pin : Nat) : Bool :=
  optTruthy ((pins.getField (toString pin)).bind (fun p => p.getField "pwm"))

/-- The `setPWM(pin, dutyCycle)` command of the testfrontend variant.  `dutyCycle` is the
numeric value produced by the source's `parseFloat(dutyCycle)` on the slider
string.  No PWM sub-state in the mirror: one `POST /pwm/start` with the duty
cycle and the hard-coded 1000 Hz frequency; sub-state present: one
`PUT /pwm/update` with the duty cycle.  On command success the pin mirror is
refreshed. -/
def setPWM (pin : Nat) (dutyCycle : Int) (frCmd frRefresh : FetchResult)
    (st : AppState) : AppState × List Request :=
  if !(pwmShown st.pins pin) then
    let body := JVal.obj
      [("pin", JVal.num pin), ("frequency", JVal.num 1000),
       ("duty_cycle", JVal.num dutyCycle)]
    let (st1, reqS, res) := makeRequest "/pwm/start" "POST" (some body) frCmd st
    match res with
    | .error _ => (st1, [reqS])
    | .ok _ =>
        let (st2, reqsR) := loadAllPins frRefresh st1
        (st2, reqS :: reqsR)
  else
    let body := JVal.obj [("pin", JVal.num pin), ("duty_cycle", JVal.num dutyCycle)]
    let (st1, reqU, res) := makeRequest "/pwm/update" "PUT" (some body) frCmd st
    match res with
    | .error _ => (st1, [reqU])
    | .ok _ =>
        let (st2, reqsR) := loadAllPins frRefresh st1
        (st2, reqU :: reqsR)

/-- JS `Char` lowering for `toLowerCase()` on the ASCII labels these pages
handle. -/
def jsLowerChar (c : Char) : Char :=
  if 'A' ≤ c ∧ c ≤ 'Z' then Char.ofNat (c.toNat + 32) else c

/-- JS `s.toLowerCase()`. -/
def jsToLower (s : String) : String := String.mk (s.data.map jsLowerChar)

/-- JS whitespace test used by `trim()`. -/
def jsIsSpace (c : Char) : Bool := c == ' ' || c == '\t' || c == '\n' || c == '\r'

/-- JS `s.trim()`. -/
def jsTrim (s : String) : String :=
  String.mk (((s.data.dropWhile jsIsSpace).reverse.dropWhile jsIsSpace).reverse)

/-- Containment kernel: the needle tested as a starting segment at every suffix of the haystack. -/
def charsIncludes (needle : List Char) : List Char → Bool
  | [] => needle.isPrefixOf []
  | c :: rest => needle.isPrefixOf (c :: rest) || charsIncludes needle rest

/-- JS `hay.includes(needle)`: substring containment. -/
def jsIncludes (hay needle : String) : Bool := charsIncludes needle.data hay.data

/-- The predicate of the target-matching `find` shared by
`checkAndMoveForward` and `moveForward`:
`det.class.toLowerCase().includes(findObject.trim().toLowerCase())`. -/
def detMatches (findObject : String) (det : Detection) : Bool :=
  jsIncludes (jsToLower det.cls) (jsToLower (jsTrim findObject))

/-- The `detectionInfo.find(det => ...)` expression: first detection of the latest batch whose
label case-insensitively contains the trimmed target substring. -/
def targetMatch (detectionInfo : List Detection) (findObject : String) :
    Option Detection :=
  detectionInfo.find? (detMatches findObject)

/-- The `checkAndMoveForward()` check: early return unless an object is detected and the
trimmed target is nonempty; otherwise sets `foundTarget` according to the
target match. -/
def checkAndMoveForward (st : AppState) : AppState :=
  if !st.objectDetected || jsTrim st.findObject == "" then st
  else
    match targetMatch st.detectionInfo st.findObject with
    | some _ => { st with foundTarget := true }
    | none => { st with foundTarget := false }

/-- Text-frame handler of the camera WebSocket (`ws.onmessage`, string case):
replaces the detection batch wholesale, recomputes `objectDetected`, and runs
the target-matching check.  The JSON decoding of the text frame is elided; the
parsed batch is the argument. -/
def onDetectionMessage (detections : List Detection) (st : AppState) : AppState :=
  checkAndMoveForward
    { st with detectionInfo := detections, objectDetected := !detections.isEmpty }

/-- The `moveForward(speed)` command: single-flight guard on `moving`, detection gate, one
`POST /motor/forward`, motor-status refresh on success; `finally` clears
`moving` on every path after the guard. -/
def moveForward (speed : Int) (frCmd frStatus : FetchResult) (st : AppState) :
    AppState × List Request :=
  if st.moving then (st, [])
  else
    let st0 := { st with moving := true }
    let blocked := !st0.detectionInfo.isEmpty && jsTrim st0.findObject != ""
        && (targetMatch st0.detectionInfo st0.findObject).isNone
    if blocked then ({ st0 with moving := false }, [])
    else
      let data := JVal.obj [("speed", JVal.num speed)]
      let (st1, reqF, res) := makeRequest "/motor/forward" "POST" (some data) frCmd st0
      match res with
      | .error _ => ({ st1 with moving := false }, [reqF])
      | .ok _ =>
          let (st2, reqsS) := loadMotorStatus frStatus st1
          ({ st2 with moving := false }, reqF :: reqsS)

/-- The fixed period passed to `setInterval` in `onMount`. -/
def refreshPeriodMs : Nat := 2000

/-- One tick of the auto-refresh interval: both State Mirror refreshes run only
when `connectionStatus === 'connected'`, otherwise the tick does nothing. -/
def refreshTick (frPins frMotor : FetchResult) (st : AppState) :
    AppState × List Request :=
  if st.connectionStatus = "connected" then
    let (st1, reqs1) := loadAllPins frPins st
    let (st2, reqs2) := loadMotorStatus frMotor st1
    (st2, reqs1 ++ reqs2)
  else (st, [])

/-- A mounted page session: the component state plus whether the refresh
interval is still registered (`clearInterval` has not run). -/
structure Session where
  st : AppState
  timerActive : Bool

/-- Events of the polling session: an interval tick (with the outcomes of the
two fetches it may perform) or the `onMount` cleanup (`clearInterval`). -/
inductive SessionEvent where
  | tick (frPins frMotor : FetchResult)
  | unmount

/-- Session semantics: a tick fires the guarded refreshes only while the
interval is registered; unmount deregisters it. -/
def sessionStep : SessionEvent → Session → Session × List Request
  | .unmount, s => ({ s with timerActive := false }, [])
  | .tick frP frM, s =>
      if s.timerActive then
        let (st1, reqs) := refreshTick frP frM s.st
        ({ s with st := st1 }, reqs)
      else (s, [])

/-- Run a list of session events, collecting all issued requests. -/
def runSession : List SessionEvent → Session → Session × List Request
  | [], s => (s, [])
  | e :: es, s =>
      let (s1, r1) := sessionStep e s
      let (s2, r2) := runSession es s1
      (s2, r1 ++ r2)

/-- The fixed delay passed to `setTimeout` in `ws.onclose` of `startCamera`. -/
def cameraRetryDelayMs : Nat := 3000

/-- The Live Media Session of `startCamera`: the `cameraConnected` flag, whether
an `onclose`-scheduled retry timeout is pending, whether the owning view was
disposed (the `onMount` cleanup ran), and how many connection attempts
(`new WebSocket` via `startCamera()`) have been made. -/
structure CamSession where
  cameraConnected : Bool
  retryPending : Bool
  disposed : Bool
  connectAttempts : Nat
  deriving Repr, DecidableEq

/-- Events of the Live Media Session: handshake success (`ws.onopen`), loss of
the connection (`ws.onclose`), the 3000 ms retry timeout firing, and the
explicit teardown by the owning view (`ws.close()` in the cleanup). -/
inductive CamEvent where
  | onopen
  | onclose
  | retryFires
  | teardown

/-- Live Media Session semantics from the source.  `onclose` clears
`cameraConnected` and schedules a retry; the retry calls `startCamera()` iff
`!cameraConnected` at firing time.  The teardown closes the socket but the
source keeps no timeout handle and never calls `clearTimeout`, so a pending
retry is left pending. -/
def camStep : CamEvent → CamSession → CamSession
  | .onopen, s => { s with cameraConnected := true }
  | .onclose, s => { s with cameraConnected := false, retryPending := true }
  | .retryFires, s =>
      if s.retryPending then
        if !s.cameraConnected then
          { s with retryPending := false, connectAttempts := s.connectAttempts + 1 }
        else { s with retryPending := false }
      else s
  | .teardown, s => { s with disposed := true }

/-- Run a list of Live Media Session events. -/
def camRun : List CamEvent → CamSession → CamSession
  | [], s => s
  | e :: es, s => camRun es (camStep e s)

/-- Initial camera session: not connected, nothing pending, not disposed. -/
def camInit : CamSession := ⟨false, false, false, 0⟩

/-- A successful write acknowledgement (any parsed ok body; its content is
unused by `togglePin`). -/
def okEmpty : FetchResult := .response true (some (JVal.obj []))

/-- The `/pins/all` response of the store-and-return server assumed by the
double-toggle claim: it reports exactly the level last written for `pin`. -/
def pinsAllResponse (pin : Nat) (level : Bool) : FetchResult :=
  .response true (some (JVal.obj
    [("pins", JVal.obj [(toString pin, JVal.obj [("state", JVal.bool level)])]),
     ("available_pins", JVal.obj [])]))

/-- One serialized `togglePin` round against the store-and-return server: the
write succeeds, and the refresh that `togglePin` performs afterwards returns
the level the write requested (the negation of the mirror's current level). -/
def serializedToggle (pin : Nat) (st : AppState) : AppState :=
  (togglePin pin okEmpty (pinsAllResponse pin (!(pinLevel st.pins pin))) st).1

/-- The `makeRequest` of the `part_002` variant: identical fetch handling, but the
non-ok branch runs `await response.json()` with no `.catch`, so an unparseable
error body throws a `SyntaxError`; the outer catch sets the status, alerts, and
rethrows. -/
def makeRequestV2 (endpoint method : String) (body : Option JVal)
    (fr : FetchResult) (st : AppState) : AppState × Except JsError JVal :=
  match fr with
  | .transportError => ({ st with connectionStatus := "error" }, .error .transport)
  | .response ok rbody =>
      if ok then
        match rbody with
        | some j => ({ st with connectionStatus := "connected" }, .ok j)
        | none => ({ st with connectionStatus := "error" }, .error .syntaxError)
      else
        match rbody with
        | some j =>
            ({ st with connectionStatus := "error" },
              .error (.message (jsOr (j.getField "detail")
                (JVal.str "Request failed")).jsString))
        | none => ({ st with connectionStatus := "error" }, .error .syntaxError)

/-- The `makeRequest` of the `part_000` variant: same fetch handling as `part_002`
(no `.catch` on the error-body parse), but its own catch swallows every error
and returns `null`, so the caller only ever sees the parsed body or `none`. -/
def makeRequestV0 (endpoint method : String) (body : Option JVal)
    (fr : FetchResult) (st : AppState) : AppState × Option JVal :=
  match fr with
  | .transportError => ({ st with connectionStatus := "error" }, none)
  | .response ok rbody =>
      if ok then
        match rbody with
        | some j => ({ st with connectionStatus := "connected" }, some j)
        | none => ({ st with connectionStatus := "error" }, none)
      else ({ st with connectionStatus := "error" }, none)

/-! ## Claim theorems -/

/-- C1: a successful State Mirror refresh replaces the local mapping wholesale
with the corresponding response field, with no merging with prior state: after
a successful `GET /pins/all` response the pin mapping equals exactly the
response's `pins` field and the available-pins mapping its `available_pins`
field, and after a successful `GET /motor/status` response the `motorStatus`
mapping equals exactly the response's `motor_status` field — for every prior
state. -/
theorem mirror_refresh_replaces_wholesale
    (st stM : AppState) (dataP dataM P A M : JVal)
    (hPf : dataP.getField "pins" = some P) (hPt : P.truthy = true)
    (hAf : dataP.getField "available_pins" = some A) (hAt : A.truthy = true)
    (hMf : dataM.getField "motor_status" = some M) (hMt : M.truthy = true) :
    ((loadAllPins (.response true (some dataP)) st).1.pins = P
      ∧ (loadAllPins (.response true (some dataP)) st).1.availablePins = A)
    ∧ (loadMotorStatus (.response true (some dataM)) stM).1.motorStatus = M := by
  have hPtruthy : dataP.truthy = true := by
    cases dataP <;> first | rfl | (simp [JVal.getField] at hPf)
  have hMtruthy : dataM.truthy = true := by
    cases dataM <;> first | rfl | (simp [JVal.getField] at hMf)
  refine ⟨⟨?_, ?_⟩, ?_⟩ <;>
    simp [loadAllPins, loadMotorStatus, makeRequest, hPtruthy, hMtruthy,
      hPf, hAf, hMf, jsOr, hPt, hAt, hMt]

/-- Witness for C1, including the spec's scenario: a `/motor/status` body
`{"motor_status": {"IN1": {"current_value": true}}}` makes `motorStatus`
exactly `{"IN1": {"current_value": true}}`. -/
theorem mirror_refresh_replaces_wholesale_witness :
    ((loadAllPins (.response true (some (JVal.obj
        [("pins", JVal.obj [("13", JVal.obj [("state", JVal.bool true)])]),
         ("available_pins", JVal.obj [("18", JVal.str "available")])]))) initState).1.pins
       = JVal.obj [("13", JVal.obj [("state", JVal.bool true)])]
     ∧ (loadAllPins (.response true (some (JVal.obj
        [("pins", JVal.obj [("13", JVal.obj [("state", JVal.bool true)])]),
         ("available_pins", JVal.obj [("18", JVal.str "available")])]))) initState).1.availablePins
       = JVal.obj [("18", JVal.str "available")])
    ∧ (loadMotorStatus (.response true (some (JVal.obj
        [("motor_status", JVal.obj
          [("IN1", JVal.obj [("current_value", JVal.bool true)])])])))
        initState).1.motorStatus
      = JVal.obj [("IN1", JVal.obj [("current_value", JVal.bool true)])] :=
  mirror_refresh_replaces_wholesale initState initState _ _ _ _ _
    rfl rfl rfl rfl rfl rfl

/-- C2: on a command failure (transport failure or non-success HTTP status),
`connectionStatus` is not set to `connected` and the error is surfaced to the
caller; on the failing path of `togglePin` only the write request is issued —
no State Mirror refresh request; conversely, on any success `makeRequest` sets
`connectionStatus` to `connected`. -/
theorem command_failure_no_connect_no_refresh
    (endpoint method : String) (body : Option JVal) (pin : Nat)
    (fr frW frR : FetchResult) (st st2 st3 : AppState) (j : JVal)
    (hfail : requestFails fr = true) (hfailW : requestFails frW = true) :
    ((makeRequest endpoint method body fr st).1.connectionStatus ≠ "connected"
      ∧ ∃ e, (makeRequest endpoint method body fr st).2.2 = Except.error e)
    ∧ (∀ r ∈ (togglePin pin frW frR st2).2,
        r.endpoint = "/digital/write" ∧ r.method = "POST")
    ∧ (makeRequest endpoint method body (.response true (some j)) st3).1.connectionStatus
        = "connected" := by
  refine ⟨?_, ?_, by simp [makeRequest]⟩
  · match fr with
    | .transportError => simp [makeRequest]
    | .response ok rbody =>
        have hok : ok = false := by
          simpa [requestFails] using hfail
        subst hok
        simp [makeRequest]
  · match frW with
    | .transportError =>
        intro r hr
        simp [togglePin, makeRequest] at hr
        simp [hr]
    | .response ok rbody =>
        have hok : ok = false := by
          simpa [requestFails] using hfailW
        subst hok
        intro r hr
        simp [togglePin, makeRequest] at hr
        simp [hr]

/-- Witness for C2 at a concrete 500-status failure and a concrete success. -/
theorem command_failure_no_connect_no_refresh_witness :
    ((makeRequest "/motor/forward" "POST" none (.response false none)
        initState).1.connectionStatus ≠ "connected"
      ∧ ∃ e, (makeRequest "/motor/forward" "POST" none (.response false none)
        initState).2.2 = Except.error e)
    ∧ (∀ r ∈ (togglePin 13 (.response false none) okEmpty initState).2,
        r.endpoint = "/digital/write" ∧ r.method = "POST")
    ∧ (makeRequest "/motor/forward" "POST" none (.response true (some (JVal.obj [])))
        initState).1.connectionStatus = "connected" :=
  command_failure_no_connect_no_refresh "/motor/forward" "POST" none 13
    (.response false none) (.response false none) okEmpty initState initState initState
    (JVal.obj []) rfl rfl

/-- C3: every State Mirror refresh failure — transport failure, non-success
HTTP status, or unparseable body — leaves the pin, available-pin, and motor
mappings untouched, sets `connectionStatus` to `error`, and is swallowed
locally (both refresh operations are total functions into a plain state: the
caught error never escapes them). -/
theorem refresh_failure_stale_but_available
    (fr fr2 : FetchResult) (st st2 : AppState)
    (h : requestFails fr = true ∨ fr = .response true none)
    (h2 : requestFails fr2 = true ∨ fr2 = .response true none) :
    ((loadAllPins fr st).1.pins = st.pins
      ∧ (loadAllPins fr st).1.availablePins = st.availablePins
      ∧ (loadAllPins fr st).1.motorStatus = st.motorStatus
      ∧ (loadAllPins fr st).1.connectionStatus = "error")
    ∧ ((loadMotorStatus fr2 st2).1.pins = st2.pins
      ∧ (loadMotorStatus fr2 st2).1.availablePins = st2.availablePins
      ∧ (loadMotorStatus fr2 st2).1.motorStatus = st2.motorStatus
      ∧ (loadMotorStatus fr2 st2).1.connectionStatus = "error") := by
  constructor
  · match fr, h with
    | .transportError, _ => simp [loadAllPins, makeRequest]
    | .response true none, _ => simp [loadAllPins, makeRequest]
    | .response ok rbody, .inl hf =>
        have hok : ok = false := by simpa [requestFails] using hf
        subst hok
        simp [loadAllPins, makeRequest]
  · match fr2, h2 with
    | .transportError, _ => simp [loadMotorStatus, makeRequest]
    | .response true none, _ => simp [loadMotorStatus, makeRequest]
    | .response ok rbody, .inl hf =>
        have hok : ok = false := by simpa [requestFails] using hf
        subst hok
        simp [loadMotorStatus, makeRequest]

/-- Witness for C3: an unparseable-body failure for the pin refresh and a
non-success status for the motor refresh, from a state holding prior data. -/
theorem refresh_failure_stale_but_available_witness :
    ((loadAllPins (.response true none)
        { initState with pins := JVal.obj [("13", JVal.obj [("state", JVal.bool true)])] }).1.pins
      = JVal.obj [("13", JVal.obj [("state", JVal.bool true)])]
      ∧ (loadAllPins (.response true none)
        { initState with pins := JVal.obj [("13", JVal.obj [("state", JVal.bool true)])] }).1.availablePins
      = initState.availablePins
      ∧ (loadAllPins (.response true none)
        { initState with pins := JVal.obj [("13", JVal.obj [("state", JVal.bool true)])] }).1.motorStatus
      = initState.motorStatus
      ∧ (loadAllPins (.response true none)
        { initState with pins := JVal.obj [("13", JVal.obj [("state", JVal.bool true)])] }).1.connectionStatus
      = "error")
    ∧ ((loadMotorStatus (.response false (some (JVal.obj [("detail", JVal.str "boom")])))
        initState).1.pins = initState.pins
      ∧ (loadMotorStatus (.response false (some (JVal.obj [("detail", JVal.str "boom")])))
        initState).1.availablePins = initState.availablePins
      ∧ (loadMotorStatus (.response false (some (JVal.obj [("detail", JVal.str "boom")])))
        initState).1.motorStatus = initState.motorStatus
      ∧ (loadMotorStatus (.response false (some (JVal.obj [("detail", JVal.str "boom")])))
        initState).1.connectionStatus = "error") :=
  refresh_failure_stale_but_available (.response true none)
    (.response false (some (JVal.obj [("detail", JVal.str "boom")])))
    { initState with pins := JVal.obj [("13", JVal.obj [("state", JVal.bool true)])] }
    initState (Or.inr rfl) (Or.inl rfl)

/-- Number of requests in a trace aimed at a given endpoint. -/
def countEndpoint (reqs : List Request) (e : String) : Nat :=
  (reqs.filter (fun r => r.endpoint == e)).length

/-- A pin-mirror refresh issues exactly one request, `GET /pins/all`, whatever
its outcome. -/
theorem loadAllPins_requests (fr : FetchResult) (st : AppState) :
    (loadAllPins fr st).2 = [⟨"/pins/all", "GET", none⟩] := by
  match fr with
  | .transportError => rfl
  | .response true (some j) =>
      cases hj : j.truthy <;> simp [loadAllPins, makeRequest, hj]
  | .response true none => rfl
  | .response false rbody => rfl

/-- A motor-mirror refresh issues exactly one request, `GET /motor/status`,
whatever its outcome. -/
theorem loadMotorStatus_requests (fr : FetchResult) (st : AppState) :
    (loadMotorStatus fr st).2 = [⟨"/motor/status", "GET", none⟩] := by
  match fr with
  | .transportError => rfl
  | .response true (some j) =>
      cases hj : j.truthy <;> simp [loadMotorStatus, makeRequest, hj]
  | .response true none => rfl
  | .response false rbody => rfl

/-- C4: when the State Mirror shows no PWM sub-state for the pin, `setPWM`
issues exactly one `POST /pwm/start` carrying the given duty cycle and the
default 1000 Hz frequency, and no update; when a PWM sub-state is present it
issues exactly one `PUT /pwm/update` with the given duty cycle and never a
start. -/
theorem setPWM_start_vs_update
    (pin : Nat) (duty : Int) (frCmd frRefresh frCmd2 frRefresh2 : FetchResult)
    (st stU : AppState)
    (hNo : pwmShown st.pins pin = false) (hYes : pwmShown stU.pins pin = true) :
    ((setPWM pin duty frCmd frRefresh st).2.head? = some
        ⟨"/pwm/start", "POST", some (JVal.obj [("pin", JVal.num pin),
          ("frequency", JVal.num 1000), ("duty_cycle", JVal.num duty)])⟩
      ∧ countEndpoint (setPWM pin duty frCmd frRefresh st).2 "/pwm/start" = 1
      ∧ countEndpoint (setPWM pin duty frCmd frRefresh st).2 "/pwm/update" = 0)
    ∧ ((setPWM pin duty frCmd2 frRefresh2 stU).2.head? = some
        ⟨"/pwm/update", "PUT", some (JVal.obj [("pin", JVal.num pin),
          ("duty_cycle", JVal.num duty)])⟩
      ∧ countEndpoint (setPWM pin duty frCmd2 frRefresh2 stU).2 "/pwm/update" = 1
      ∧ countEndpoint (setPWM pin duty frCmd2 frRefresh2 stU).2 "/pwm/start" = 0) := by
  constructor
  · have htrace : (setPWM pin duty frCmd frRefresh st).2 =
        ⟨"/pwm/start", "POST", some (JVal.obj [("pin", JVal.num pin),
          ("frequency", JVal.num 1000), ("duty_cycle", JVal.num duty)])⟩ ::
        (match frCmd with
          | .transportError => []
          | .response false _ => []
          | .response true none => []
          | .response true (some _) => [⟨"/pins/all", "GET", none⟩]) := by
      match frCmd with
      | .transportError => simp [setPWM, hNo, makeRequest]
      | .response false rbody => simp [setPWM, hNo, makeRequest]
      | .response true none => simp [setPWM, hNo, makeRequest]
      | .response true (some j) =>
          simp [setPWM, hNo, makeRequest, loadAllPins_requests]
    rw [htrace]
    match frCmd with
    | .transportError => exact ⟨rfl, rfl, rfl⟩
    | .response false rbody => exact ⟨rfl, rfl, rfl⟩
    | .response true none => exact ⟨rfl, rfl, rfl⟩
    | .response true (some j) => exact ⟨rfl, rfl, rfl⟩
  · have htrace : (setPWM pin duty frCmd2 frRefresh2 stU).2 =
        ⟨"/pwm/update", "PUT", some (JVal.obj [("pin", JVal.num pin),
          ("duty_cycle", JVal.num duty)])⟩ ::
        (match frCmd2 with
          | .transportError => []
          | .response false _ => []
          | .response true none => []
          | .response true (some _) => [⟨"/pins/all", "GET", none⟩]) := by
      match frCmd2 with
      | .transportError => simp [setPWM, hYes, makeRequest]
      | .response false rbody => simp [setPWM, hYes, makeRequest]
      | .response true none => simp [setPWM, hYes, makeRequest]
      | .response true (some j) =>
          simp [setPWM, hYes, makeRequest, loadAllPins_requests]
    rw [htrace]
    match frCmd2 with
    | .transportError => exact ⟨rfl, rfl, rfl⟩
    | .response false rbody => exact ⟨rfl, rfl, rfl⟩
    | .response true none => exact ⟨rfl, rfl, rfl⟩
    | .response true (some j) => exact ⟨rfl, rfl, rfl⟩

/-- Witness for C4: pin 18, duty cycle 75, against a mirror without and a
mirror with a PWM sub-state for the pin. -/
theorem setPWM_start_vs_update_witness :
    ((setPWM 18 75 okEmpty okEmpty initState).2.head? = some
        ⟨"/pwm/start", "POST", some (JVal.obj [("pin", JVal.num 18),
          ("frequency", JVal.num 1000), ("duty_cycle", JVal.num 75)])⟩
      ∧ countEndpoint (setPWM 18 75 okEmpty okEmpty initState).2 "/pwm/start" = 1
      ∧ countEndpoint (setPWM 18 75 okEmpty okEmpty initState).2 "/pwm/update" = 0)
    ∧ ((setPWM 18 75 okEmpty okEmpty
        { initState with pins := JVal.obj [("18", JVal.obj
          [("pwm", JVal.obj [("frequency", JVal.num 1000),
            ("duty_cycle", JVal.num 50)])])] }).2.head? = some
        ⟨"/pwm/update", "PUT", some (JVal.obj [("pin", JVal.num 18),
          ("duty_cycle", JVal.num 75)])⟩
      ∧ countEndpoint (setPWM 18 75 okEmpty okEmpty
        { initState with pins := JVal.obj [("18", JVal.obj
          [("pwm", JVal.obj [("frequency", JVal.num 1000),
            ("duty_cycle", JVal.num 50)])])] }).2 "/pwm/update" = 1
      ∧ countEndpoint (setPWM 18 75 okEmpty okEmpty
        { initState with pins := JVal.obj [("18", JVal.obj
          [("pwm", JVal.obj [("frequency", JVal.num 1000),
            ("duty_cycle", JVal.num 50)])])] }).2 "/pwm/start" = 0) :=
  setPWM_start_vs_update 18 75 okEmpty okEmpty okEmpty okEmpty initState
    { initState with pins := JVal.obj [("18", JVal.obj
      [("pwm", JVal.obj [("frequency", JVal.num 1000),
        ("duty_cycle", JVal.num 50)])])] } rfl rfl

/-- C5 counterexample: the retry scheduled by `onclose` is not cancelled by the
explicit teardown — the source stores no timeout handle and never calls
`clearTimeout`, and the `!cameraConnected` guard is still true after disposal —
so when the 3000 ms timeout fires after the view was disposed, a reconnect
attempt (a new `startCamera()` connection) still happens. -/
theorem camera_reconnect_after_teardown_cex :
    (camRun [.onclose, .teardown, .retryFires] camInit).disposed = true
    ∧ (camRun [.onclose, .teardown, .retryFires] camInit).connectAttempts = 1 :=
  ⟨rfl, rfl⟩

/-- C5 amended: after an `onclose`, when the 3000 ms retry timeout fires, a
reconnect attempt occurs if and only if the camera is not connected at that
moment; explicit teardown neither cancels the pending retry nor prevents the
reconnect — only an interim successful handshake (`onopen`) does. -/
theorem camera_retry_guarded_by_connected_only (s : CamSession) :
    cameraRetryDelayMs = 3000
    ∧ (camRun [.onclose, .retryFires] s).connectAttempts = s.connectAttempts + 1
    ∧ (camRun [.onclose, .teardown, .retryFires] s).connectAttempts
        = s.connectAttempts + 1
    ∧ (camRun [.onclose, .onopen, .retryFires] s).connectAttempts
        = s.connectAttempts := by
  refine ⟨rfl, ?_, ?_, ?_⟩ <;> simp [camRun, camStep]

/-- The pin mirror after one serialized toggle round: exactly the
store-and-return server's snapshot, holding the negated level. -/
theorem serializedToggle_pins (pin : Nat) (st : AppState) :
    (serializedToggle pin st).pins = JVal.obj
      [(toString pin, JVal.obj [("state", JVal.bool (!(pinLevel st.pins pin)))])] := by
  simp [serializedToggle, togglePin, makeRequest, okEmpty, pinsAllResponse,
    loadAllPins, JVal.truthy, JVal.getField, List.lookup, jsOr]

/-- One serialized toggle round negates the mirror's level of the pin. -/
theorem serializedToggle_level (pin : Nat) (st : AppState) :
    pinLevel (serializedToggle pin st).pins pin = !(pinLevel st.pins pin) := by
  rw [serializedToggle_pins]
  simp [pinLevel, JVal.getField, List.lookup, optTruthy, JVal.truthy]

/-- C6: under serialized resolution against a store-and-return server, toggling
the same pin twice returns the mirror's boolean level for that pin to its
original value, from any starting state. -/
theorem togglePin_twice_identity (pin : Nat) (st : AppState) :
    pinLevel (serializedToggle pin (serializedToggle pin st)).pins pin
      = pinLevel st.pins pin := by
  rw [serializedToggle_level, serializedToggle_level, Bool.not_not]

/-- A `find?` succeeds exactly when some element satisfies the predicate. -/
theorem find?_isSome_eq_any (p : Detection → Bool) (l : List Detection) :
    (l.find? p).isSome = l.any p := by
  induction l with
  | nil => rfl
  | cons x xs ih => cases hx : p x <;> simp [List.find?, hx, ih]

/-- C7: the target-matching check returns a detection entry of the latest batch
exactly when an entry's class label case-insensitively contains the trimmed
target substring — any returned entry belongs to the batch and matches, a
match is found iff some entry matches — and on the batch
`[{class:"car"}, {class:"person"}]` the target `"per"` returns the `"person"`
entry and sets `foundTarget`, while `"zzz"` returns no match and clears it. -/
theorem target_matching_check
    (batch : List Detection) (t : String) (d : Detection)
    (hfound : targetMatch batch t = some d) :
    (d ∈ batch ∧ detMatches t d = true)
    ∧ ((targetMatch batch t).isSome = batch.any (detMatches t))
    ∧ targetMatch [⟨"car", 90⟩, ⟨"person", 80⟩] "per" = some ⟨"person", 80⟩
    ∧ (onDetectionMessage [⟨"car", 90⟩, ⟨"person", 80⟩]
        { initState with findObject := "per" }).foundTarget = true
    ∧ targetMatch [⟨"car", 90⟩, ⟨"person", 80⟩] "zzz" = none
    ∧ (onDetectionMessage [⟨"car", 90⟩, ⟨"person", 80⟩]
        { initState with findObject := "zzz" }).foundTarget = false :=
  ⟨⟨List.mem_of_find?_eq_some hfound, List.find?_some hfound⟩,
    find?_isSome_eq_any _ _, rfl, rfl, rfl, rfl⟩

/-- Witness for C7 at the spec's example batch and target `"per"`. -/
theorem target_matching_check_witness :
    ((⟨"person", 80⟩ : Detection) ∈ ([⟨"car", 90⟩, ⟨"person", 80⟩] : List Detection)
      ∧ detMatches "per" ⟨"person", 80⟩ = true)
    ∧ ((targetMatch [⟨"car", 90⟩, ⟨"person", 80⟩] "per").isSome
        = ([⟨"car", 90⟩, ⟨"person", 80⟩] : List Detection).any (detMatches "per"))
    ∧ targetMatch [⟨"car", 90⟩, ⟨"person", 80⟩] "per" = some ⟨"person", 80⟩
    ∧ (onDetectionMessage [⟨"car", 90⟩, ⟨"person", 80⟩]
        { initState with findObject := "per" }).foundTarget = true
    ∧ targetMatch [⟨"car", 90⟩, ⟨"person", 80⟩] "zzz" = none
    ∧ (onDetectionMessage [⟨"car", 90⟩, ⟨"person", 80⟩]
        { initState with findObject := "zzz" }).foundTarget = false :=
  target_matching_check [⟨"car", 90⟩, ⟨"person", 80⟩] "per" ⟨"person", 80⟩ rfl

/-- Once the interval is deregistered, no later event issues any request. -/
theorem runSession_inactive (evs : List SessionEvent) :
    ∀ s : Session, s.timerActive = false → (runSession evs s).2 = [] := by
  induction evs with
  | nil => intro s h; rfl
  | cons e es ih =>
      intro s h
      match e with
      | .unmount => simp [runSession, sessionStep, ih { s with timerActive := false } rfl]
      | .tick frP frM => simp [runSession, sessionStep, h, ih s h]

/-- C8: the poll timer has the fixed period 2000 ms; a tick with
`connectionStatus` anything other than `connected` issues no request and leaves
the state untouched; once the session ends (`clearInterval` on unmount) no
later tick issues any request; and a tick while connected invokes exactly the
pin and motor refreshes. -/
theorem poll_gated_on_connected
    (frP frM : FetchResult) (st : AppState) (s s2 : Session)
    (evs : List SessionEvent)
    (hnc : st.connectionStatus ≠ "connected")
    (hc : s2.st.connectionStatus = "connected") (hact : s2.timerActive = true) :
    refreshPeriodMs = 2000
    ∧ refreshTick frP frM st = (st, [])
    ∧ (runSession (SessionEvent.unmount :: evs) s).2 = []
    ∧ ((sessionStep (.tick frP frM) s2).2.map Request.endpoint
        = ["/pins/all", "/motor/status"]) := by
  refine ⟨rfl, by simp [refreshTick, hnc], ?_, ?_⟩
  · simp [runSession, sessionStep, runSession_inactive evs { s with timerActive := false } rfl]
  · have h1 := loadAllPins_requests frP s2.st
    have h2 := loadMotorStatus_requests frM (loadAllPins frP s2.st).1
    rcases hP : loadAllPins frP s2.st with ⟨stP, reqsP⟩
    rcases hM : loadMotorStatus frM stP with ⟨stM, reqsM⟩
    rw [hP] at h1 h2
    rw [hM] at h2
    simp at h1 h2
    simp [sessionStep, hact, refreshTick, hc, hP, hM, h1, h2]

/-- Witness for C8: a disconnected tick, a post-unmount trace, and a connected
tick, at concrete states. -/
theorem poll_gated_on_connected_witness :
    refreshPeriodMs = 2000
    ∧ refreshTick okEmpty okEmpty initState = (initState, [])
    ∧ (runSession [SessionEvent.unmount, SessionEvent.tick okEmpty okEmpty]
        ⟨{ initState with connectionStatus := "connected" }, true⟩).2 = []
    ∧ ((sessionStep (.tick okEmpty okEmpty)
        ⟨{ initState with connectionStatus := "connected" }, true⟩).2.map Request.endpoint
        = ["/pins/all", "/motor/status"]) :=
  poll_gated_on_connected okEmpty okEmpty initState
    ⟨{ initState with connectionStatus := "connected" }, true⟩
    ⟨{ initState with connectionStatus := "connected" }, true⟩
    [SessionEvent.tick okEmpty okEmpty] (by decide) rfl rfl

/-- C9 counterexample: in the `part_002` variant an unparseable error body is
not turned into the generic `Request failed` message — `response.json()` has no
`.catch` there, so the surfaced error is the JSON parse failure itself — and in
the `part_000` variant no message reaches the caller at all: its `makeRequest`
swallows the failure and returns `null`. -/
theorem errordetail_fallback_cex :
    (makeRequestV2 "/pin/configure" "POST" none (.response false none)
        initState).2 = Except.error JsError.syntaxError
    ∧ JsError.syntaxError ≠ JsError.message "Request failed"
    ∧ (makeRequestV0 "/pin/configure" "POST" none (.response false none)
        initState).2 = none :=
  ⟨rfl, by decide, rfl⟩

/-- C9 amended: in the testfrontend variant, every non-success response is
surfaced as an error whose message is the body's `detail` field, falling back
to `Request failed` when the body is unparseable or carries no truthy detail,
and the extraction is total; in the `part_002` variant this holds only when the
error body parses; in the `part_000` variant the failure is swallowed and the
caller receives `null` with no message. -/
theorem errordetail_extraction
    (endpoint method : String) (body rbody rb0 : Option JVal)
    (st st2 st3 : AppState) (errBody : JVal) (s : String)
    (hdetail : errBody.getField "detail" = some (JVal.str s)) (hs : s ≠ "") :
    ((makeRequest endpoint method body (.response false rbody) st).2.2
        = Except.error (.message (detailMessage rbody)))
    ∧ detailMessage (some errBody) = s
    ∧ detailMessage none = "Request failed"
    ∧ (∀ fields, List.lookup "detail" fields = (none : Option JVal) →
        detailMessage (some (JVal.obj fields)) = "Request failed")
    ∧ ((makeRequestV2 endpoint method body (.response false (some errBody)) st2).2
        = Except.error (.message s))
    ∧ ((makeRequestV0 endpoint method body (.response false rb0) st3).2 = none) := by
  have hstruthy : JVal.truthy (JVal.str s) = true := by
    simp [JVal.truthy, hs]
  refine ⟨rfl, ?_, rfl, ?_, ?_, rfl⟩
  · simp [detailMessage, hdetail, jsOr, hstruthy, JVal.jsString]
  · intro fields hf
    simp [detailMessage, JVal.getField, hf, jsOr, JVal.jsString]
  · simp [makeRequestV2, hdetail, jsOr, hstruthy, JVal.jsString]

/-- Witness for C9 (amended) at a concrete detail string. -/
theorem errordetail_extraction_witness :
    ((makeRequest "/pin/configure" "POST" none
        (.response false (some (JVal.obj [("detail", JVal.str "Pin not configured")])))
        initState).2.2
      = Except.error (.message (detailMessage
          (some (JVal.obj [("detail", JVal.str "Pin not configured")])))))
    ∧ detailMessage (some (JVal.obj [("detail", JVal.str "Pin not configured")]))
        = "Pin not configured"
    ∧ detailMessage none = "Request failed"
    ∧ (∀ fields, List.lookup "detail" fields = (none : Option JVal) →
        detailMessage (some (JVal.obj fields)) = "Request failed")
    ∧ ((makeRequestV2 "/pin/configure" "POST" none
        (.response false (some (JVal.obj [("detail", JVal.str "Pin not configured")])))
        initState).2 = Except.error (.message "Pin not configured"))
    ∧ ((makeRequestV0 "/pin/configure" "POST" none (.response false none)
        initState).2 = none) :=
  errordetail_extraction "/pin/configure" "POST" none
    (some (JVal.obj [("detail", JVal.str "Pin not configured")])) none
    initState initState initState
    (JVal.obj [("detail", JVal.str "Pin not configured")])
    "Pin not configured" rfl (by decide)

/-- C10: `moveForward` is single-flight — a call that finds `moving` set
returns immediately, issuing no request and leaving the state untouched — and
from an idle state the flag is cleared again when the call completes, on every
path (detection-gate return, command failure, or success plus refresh). -/
theorem moveForward_single_flight
    (speed speed2 : Int) (frCmd frStatus frCmd2 frStatus2 : FetchResult)
    (st st2 : AppState)
    (hbusy : st.moving = true) (hidle : st2.moving = false) :
    moveForward speed frCmd frStatus st = (st, [])
    ∧ (moveForward speed2 frCmd2 frStatus2 st2).1.moving = false := by
  constructor
  · simp [moveForward, hbusy]
  · cases hb : (!st2.detectionInfo.isEmpty && jsTrim st2.findObject != ""
        && (targetMatch st2.detectionInfo st2.findObject).isNone) with
    | true => simp [moveForward, hidle, hb]
    | false =>
        match frCmd2 with
        | .transportError => simp [moveForward, hidle, hb, makeRequest]
        | .response false rb => simp [moveForward, hidle, hb, makeRequest]
        | .response true none => simp [moveForward, hidle, hb, makeRequest]
        | .response true (some j) =>
            match frStatus2 with
            | .transportError =>
                simp [moveForward, hidle, hb, makeRequest, loadMotorStatus]
            | .response false rb =>
                simp [moveForward, hidle, hb, makeRequest, loadMotorStatus]
            | .response true none =>
                simp [moveForward, hidle, hb, makeRequest, loadMotorStatus]
            | .response true (some j2) =>
                cases hj : j2.truthy <;>
                  simp [moveForward, hidle, hb, makeRequest, loadMotorStatus, hj]

/-- Witness for C10: a busy state is left untouched with no request; an idle
state ends with the flag cleared after a successful run. -/
theorem moveForward_single_flight_witness :
    moveForward 50 okEmpty okEmpty { initState with moving := true }
      = ({ initState with moving := true }, [])
    ∧ (moveForward 50 okEmpty okEmpty initState).1.moving = false :=
  moveForward_single_flight 50 50 okEmpty okEmpty okEmpty okEmpty
    { initState with moving := true } initState rfl rfl

end Car
